import Mathlib

/-!
Shallow embedding of the Unikart race-simulation core, translated from the
TypeScript sources: `src/physics/drift-boost.ts`, `src/physics/kart.ts`,
`src/physics/collision.ts`, `src/gameplay/item-system.ts`,
`src/gameplay/butterfly-system.ts`, `src/ui/ui-manager.ts` (RaceManager),
`src/config/constants.ts`, `src/config/tracks.ts` (items section).

Scalar values are modelled over an arbitrary linear ordered field `α`.
Code paths that use only field arithmetic and comparisons are stated at
`α = ℚ`, where everything is decidable and evaluates; code paths that use
`Math.sqrt` / `Math.sin` / `Math.cos` / `Math.pow` are stated at `α = ℝ`
with the genuine real operations supplied through an `AnalyticOps` record.
-/

namespace Unikart

/-! ## Constants (config/constants.ts) -/

/-- constants.ts: `DRIFT_TIER_THRESHOLDS = [0.35, 0.7, 1.05]`. -/
def DRIFT_TIER_THRESHOLDS (α : Type) [LinearOrderedField α] : List α :=
  [35 / 100, 7 / 10, 105 / 100]

/-- constants.ts: `DRIFT_BOOST_DURATIONS = [0, 0.7, 1.1, 1.5]` (tier 0/1/2/3). -/
def DRIFT_BOOST_DURATIONS (α : Type) [LinearOrderedField α] : List α :=
  [0, 7 / 10, 11 / 10, 3 / 2]

/-- constants.ts: `DRIFT_BOOST_MULTIPLIER = 1.35`. -/
def DRIFT_BOOST_MULTIPLIER (α : Type) [LinearOrderedField α] : α := 135 / 100

/-- constants.ts: `DRIFT_ZONE_CHARGE_MULTIPLIER = 1.5`. -/
def DRIFT_ZONE_CHARGE_MULTIPLIER (α : Type) [LinearOrderedField α] : α := 3 / 2

/-- constants.ts: `DRIFT_COOLDOWN = 0.15`. -/
def DRIFT_COOLDOWN (α : Type) [LinearOrderedField α] : α := 15 / 100

/-- constants.ts: `DRIFT_STEERING_MULTIPLIER = 1.2`. -/
def DRIFT_STEERING_MULTIPLIER (α : Type) [LinearOrderedField α] : α := 12 / 10

/-- constants.ts: `DRIFT_FRICTION_MULTIPLIER = 0.6`. -/
def DRIFT_FRICTION_MULTIPLIER (α : Type) [LinearOrderedField α] : α := 6 / 10

/-- constants.ts: `BASE_FRICTION = 0.97`. -/
def BASE_FRICTION (α : Type) [LinearOrderedField α] : α := 97 / 100

/-- constants.ts: `BASE_BRAKE_FORCE = 40`. -/
def BASE_BRAKE_FORCE (α : Type) [LinearOrderedField α] : α := 40

/-- constants.ts: `OFFROAD_SPEED_MULTIPLIER = 0.5`. -/
def OFFROAD_SPEED_MULTIPLIER (α : Type) [LinearOrderedField α] : α := 1 / 2

/-- constants.ts: `OFFROAD_DURING_BOOST_MULTIPLIER = 0.75`. -/
def OFFROAD_DURING_BOOST_MULTIPLIER (α : Type) [LinearOrderedField α] : α := 3 / 4

/-- constants.ts: `WALL_BOUNCE_FACTOR = 0.3`. -/
def WALL_BOUNCE_FACTOR (α : Type) [LinearOrderedField α] : α := 3 / 10

/-- constants.ts: `WALL_PUSH_FORCE = 8`. -/
def WALL_PUSH_FORCE (α : Type) [LinearOrderedField α] : α := 8

/-- constants.ts: `KART_BOUNCE_FACTOR = 0.2`. -/
def KART_BOUNCE_FACTOR (α : Type) [LinearOrderedField α] : α := 2 / 10

/-- constants.ts: `KART_COLLISION_RADIUS = 1.8`. -/
def KART_COLLISION_RADIUS (α : Type) [LinearOrderedField α] : α := 18 / 10

/-! ## Drift-boost state machine (src/physics/drift-boost.ts) -/

/-- drift-boost.ts: `type DriftState = 'idle' | 'charging' | 'boosting' | 'cooldown'`. -/
inductive DriftState : Type
  | idle
  | charging
  | boosting
  | cooldown
deriving DecidableEq

/-- drift-boost.ts: class `DriftBoost` (fields and their initial values). -/
structure DriftBoost (α : Type) where
  state : DriftState
  tier : ℕ
  chargeTime : α
  boostTimeLeft : α
  cooldownLeft : α
  driftDirection : α
deriving DecidableEq

section DriftBoostOps

variable {α : Type} [LinearOrderedField α]

/-- Initial field values of a freshly constructed `DriftBoost`. -/
def DriftBoost.init : DriftBoost α :=
  { state := .idle, tier := 0, chargeTime := 0, boostTimeLeft := 0,
    cooldownLeft := 0, driftDirection := 0 }

/-- drift-boost.ts: getter `isCharging`. -/
def DriftBoost.isCharging (d : DriftBoost α) : Bool := d.state = DriftState.charging

/-- drift-boost.ts: getter `isBoosting`. -/
def DriftBoost.isBoosting (d : DriftBoost α) : Bool := d.state = DriftState.boosting

/-- drift-boost.ts: getter `speedMultiplier`. -/
def DriftBoost.speedMultiplier (d : DriftBoost α) : α :=
  if d.state = DriftState.boosting then DRIFT_BOOST_MULTIPLIER α else 1

/-- drift-boost.ts: `startDrift(steerDir)`; returns the boolean result together
with the updated machine (the TypeScript method mutates `this`). -/
def DriftBoost.startDrift (steerDir : α) (d : DriftBoost α) : Bool × DriftBoost α :=
  if d.state ≠ DriftState.idle then (false, d)
  else
    (true,
      { d with state := .charging, chargeTime := 0, tier := 0,
               driftDirection := if steerDir ≥ 0 then 1 else -1 })

/-- drift-boost.ts: `update(dt, inDriftZone)`. -/
def DriftBoost.update (dt : α) (inDriftZone : Bool) (d : DriftBoost α) : DriftBoost α :=
  match d.state with
  | .charging =>
    let multiplier := if inDriftZone then DRIFT_ZONE_CHARGE_MULTIPLIER α else 1
    let ct := d.chargeTime + dt * multiplier
    let t : ℕ :=
      if ct ≥ (DRIFT_TIER_THRESHOLDS α).getD 2 0 ∧ d.tier < 3 then 3
      else if ct ≥ (DRIFT_TIER_THRESHOLDS α).getD 1 0 ∧ d.tier < 2 then 2
      else if ct ≥ (DRIFT_TIER_THRESHOLDS α).getD 0 0 ∧ d.tier < 1 then 1
      else d.tier
    { d with chargeTime := ct, tier := t }
  | .boosting =>
    let b := d.boostTimeLeft - dt
    if b ≤ 0 then
      { d with boostTimeLeft := b, state := .cooldown, cooldownLeft := DRIFT_COOLDOWN α }
    else { d with boostTimeLeft := b }
  | .cooldown =>
    let c := d.cooldownLeft - dt
    if c ≤ 0 then { d with cooldownLeft := c, state := .idle }
    else { d with cooldownLeft := c }
  | .idle => d

/-- drift-boost.ts: `release()`; returns the boost duration together with the
updated machine. -/
def DriftBoost.release (d : DriftBoost α) : α × DriftBoost α :=
  if d.state ≠ DriftState.charging then (0, d)
  else
    let duration := (DRIFT_BOOST_DURATIONS α).getD d.tier 0
    if duration > 0 then
      (duration,
        { d with state := .boosting, boostTimeLeft := duration, driftDirection := 0 })
    else
      (duration,
        { d with state := .cooldown, cooldownLeft := DRIFT_COOLDOWN α, driftDirection := 0 })

/-- drift-boost.ts: `cancel()`. -/
def DriftBoost.cancel (d : DriftBoost α) : DriftBoost α :=
  { d with state := .cooldown, cooldownLeft := DRIFT_COOLDOWN α, tier := 0,
           chargeTime := 0, driftDirection := 0 }

end DriftBoostOps

/-- One external operation on a `DriftBoost` (the public mutating methods of
the class), used to state invariants over arbitrary call sequences. -/
inductive DriftOp (α : Type) : Type
  | updateOp (dt : α) (inDriftZone : Bool)
  | startOp (steerDir : α)
  | releaseOp
  | cancelOp
deriving DecidableEq

section DriftStep

variable {α : Type} [LinearOrderedField α]

/-- Effect of one `DriftOp` on the machine state (return values discarded). -/
def driftStep (op : DriftOp α) (d : DriftBoost α) : DriftBoost α :=
  match op with
  | .updateOp dt z => DriftBoost.update dt z d
  | .startOp s => (DriftBoost.startDrift s d).2
  | .releaseOp => (DriftBoost.release d).2
  | .cancelOp => DriftBoost.cancel d

end DriftStep

/-- Folding `update(dt, false)` over a list of timesteps (a charging episode
outside any drift zone). -/
def chargeUpdates (dts : List ℚ) (d : DriftBoost ℚ) : DriftBoost ℚ :=
  dts.foldl (fun d dt => DriftBoost.update dt false d) d

/-- The drift tier that corresponds to a cumulative charge time, per the
threshold table `[0.35, 0.7, 1.05]`. -/
def tierOf (c : ℚ) : ℕ :=
  if 105 / 100 ≤ c then 3 else if 7 / 10 ≤ c then 2 else if 35 / 100 ≤ c then 1 else 0

/-! ## Butterfly scoring (src/gameplay/butterfly-system.ts) -/

/-- butterfly-system.ts: `const POSITION_BONUS = [10, 7, 5, 4, 3, 2, 1, 0]`. -/
def POSITION_BONUS : List ℕ := [10, 7, 5, 4, 3, 2, 1, 0]

/-- butterfly-system.ts: `computeScore(position, butterflies)`; an out-of-range
index yields JavaScript `undefined`, and `?? 0` turns it into 0, which
`List.getD _ _ 0` mirrors. -/
def computeScore (position : ℕ) (butterflies : ℕ) : ℕ :=
  POSITION_BONUS.getD position 0 + butterflies

/-! ## Vectors and analytic operations -/

/-- A THREE.Vector3 value. -/
structure Vec3 (α : Type) where
  x : α
  y : α
  z : α
deriving DecidableEq

section Vec3Ops

variable {α : Type} [LinearOrderedField α]

/-- THREE.Vector3 `add`. -/
def Vec3.add (v w : Vec3 α) : Vec3 α := ⟨v.x + w.x, v.y + w.y, v.z + w.z⟩

/-- THREE.Vector3 `sub` / `subVectors`. -/
def Vec3.sub (v w : Vec3 α) : Vec3 α := ⟨v.x - w.x, v.y - w.y, v.z - w.z⟩

/-- THREE.Vector3 `multiplyScalar`. -/
def Vec3.smul (c : α) (v : Vec3 α) : Vec3 α := ⟨c * v.x, c * v.y, c * v.z⟩

/-- THREE.Vector3 `dot`. -/
def Vec3.dotv (v w : Vec3 α) : α := v.x * w.x + v.y * w.y + v.z * w.z

end Vec3Ops

/-- The analytic primitives (`Math.sin`, `Math.cos`, `Math.sqrt`, `Math.pow`)
used by kart physics and collision resolution, abstracted so the embedding
stays generic; the program itself is the instantiation at `ℝ` below. -/
structure AnalyticOps (α : Type) where
  sinf : α → α
  cosf : α → α
  sqrtf : α → α
  powf : α → α → α

/-- The genuine real-number operations: this instantiation is the program. -/
noncomputable def realOps : AnalyticOps ℝ :=
  ⟨Real.sin, Real.cos, Real.sqrt, fun b e => Real.rpow b e⟩

/-! ## Kart (src/physics/kart.ts) -/

/-- tracks.ts: `type ItemId = 'gust' | 'wobble' | 'turbo'`. -/
inductive ItemId : Type
  | gust
  | wobble
  | turbo
deriving DecidableEq

/-- characters.ts: `CharacterDef` (colour, type and AI-tendency presentation
fields omitted; the stats are the 1-6 scale used by the kart constructor). -/
structure CharacterDef where
  id : String
  name : String
  speed : ℚ
  accel : ℚ
  handling : ℚ
  weight : ℚ
deriving DecidableEq

instance : Inhabited CharacterDef := ⟨⟨"", "", 0, 0, 0, 0⟩⟩

/-- kart.ts: class `Kart` (the `mesh` rendering reference is omitted). -/
structure Kart (α : Type) where
  id : ℕ
  character : CharacterDef
  isHuman : Bool
  position : Vec3 α
  rotation : α
  velocity : Vec3 α
  maxSpeed : α
  baseMaxSpeed : α
  acceleration : α
  steeringSpeed : α
  weight : α
  speed : α
  steerAngle : α
  isOnRoad : Bool
  drift : DriftBoost α
  heldItem : Option ItemId
  gustTimer : α
  wobbleTimer : α
  turboTimer : α
  spinAngle : α
  butterflies : ℕ
  lap : ℕ
  checkpoint : α
  lastCheckpoint : α
  raceProgress : α
  finished : Bool
  finishTime : α
  lapTimes : List α
  lapStartTime : α
  collisionRadius : α
deriving DecidableEq

section KartOps

variable {α : Type} [LinearOrderedField α]

/-- constants.ts: `BASE_MAX_SPEED = 45`. -/
def BASE_MAX_SPEED (α : Type) [LinearOrderedField α] : α := 45

/-- constants.ts: `BASE_ACCELERATION = 28`. -/
def BASE_ACCELERATION (α : Type) [LinearOrderedField α] : α := 28

/-- constants.ts: `BASE_STEERING_SPEED = 2.8`. -/
def BASE_STEERING_SPEED (α : Type) [LinearOrderedField α] : α := 28 / 10

/-- constants.ts: `BASE_WEIGHT = 1.0`. -/
def BASE_WEIGHT (α : Type) [LinearOrderedField α] : α := 1

/-- kart.ts: the constructor, converting 1-6 character stats to physics
values via `base * (0.7 + stat * 0.1)`. -/
def Kart.create (id : ℕ) (character : CharacterDef) (isHuman : Bool) : Kart α :=
  { id := id, character := character, isHuman := isHuman,
    position := ⟨0, 0, 0⟩, rotation := 0, velocity := ⟨0, 0, 0⟩,
    maxSpeed := BASE_MAX_SPEED α * (7 / 10 + (character.speed : α) * (1 / 10)),
    baseMaxSpeed := BASE_MAX_SPEED α * (7 / 10 + (character.speed : α) * (1 / 10)),
    acceleration := BASE_ACCELERATION α * (7 / 10 + (character.accel : α) * (1 / 10)),
    steeringSpeed := BASE_STEERING_SPEED α * (7 / 10 + (character.handling : α) * (1 / 10)),
    weight := BASE_WEIGHT α * (7 / 10 + (character.weight : α) * (1 / 10)),
    speed := 0, steerAngle := 0, isOnRoad := true, drift := DriftBoost.init,
    heldItem := none, gustTimer := 0, wobbleTimer := 0, turboTimer := 0,
    spinAngle := 0, butterflies := 0, lap := 0, checkpoint := 0,
    lastCheckpoint := 0, raceProgress := 0, finished := false, finishTime := 0,
    lapTimes := [], lapStartTime := 0, collisionRadius := KART_COLLISION_RADIUS α }

/-- kart.ts: getter `forward` = `(sin(rotation), 0, cos(rotation))`. -/
def Kart.forward (ops : AnalyticOps α) (k : Kart α) : Vec3 α :=
  ⟨ops.sinf k.rotation, 0, ops.cosf k.rotation⟩

/-- kart.ts: private `getEffectiveMaxSpeed(onRoad)`. -/
def Kart.getEffectiveMaxSpeed (k : Kart α) (onRoad : Bool) : α :=
  let m1 := k.maxSpeed * k.drift.speedMultiplier
  let m2 := if 0 < k.turboTimer then m1 * (135 / 100) else m1
  let m3 := if 0 < k.wobbleTimer then m2 * (1 / 2) else m2
  if onRoad = true then m3
  else if k.drift.isBoosting = true ∨ 0 < k.turboTimer then
    m3 * OFFROAD_DURING_BOOST_MULTIPLIER α
  else m3 * OFFROAD_SPEED_MULTIPLIER α

/-- kart.ts `updatePhysics`, steps 1-2: effect timers (gust steering lock and
accel scaling, wobble tick-down) followed by the drift system calls; returns
the adjusted accel input, the adjusted steer input, and the updated kart. -/
def Kart.effectAndDrift (dt accelInput steerInput : α) (driftHeld inDriftZone : Bool)
    (k : Kart α) : α × α × Kart α :=
  let g := 0 < k.gustTimer
  let k1 := if g then
      { k with gustTimer := k.gustTimer - dt, spinAngle := k.spinAngle + 12 * dt }
    else k
  let steer1 : α := if g then 0 else steerInput
  let accel1 : α := if g then accelInput * (3 / 10) else accelInput
  let k2 := if 0 < k1.wobbleTimer then { k1 with wobbleTimer := k1.wobbleTimer - dt } else k1
  let d0 := k2.drift
  let d1 := if driftHeld = true ∧ d0.isCharging = false ∧ d0.isBoosting = false ∧ 5 < k2.speed
    then (DriftBoost.startDrift steer1 d0).2 else d0
  let d2 := if driftHeld = false ∧ d1.isCharging = true then (DriftBoost.release d1).2 else d1
  let d3 := DriftBoost.update dt inDriftZone d2
  (accel1, steer1, { k2 with drift := d3 })

/-- The kart state at the point `updatePhysics` computes the effective max
speed: after the effect-timer and drift phases (steering does not alter any
field that `getEffectiveMaxSpeed` reads). -/
def Kart.preSpeedState (dt accelInput steerInput : α) (driftHeld onRoad inDriftZone : Bool)
    (k : Kart α) : Kart α :=
  (Kart.effectAndDrift dt accelInput steerInput driftHeld inDriftZone
    { k with isOnRoad := onRoad }).2.2

/-- kart.ts: `updatePhysics(dt, accelInput, steerInput, driftHeld, onRoad, inDriftZone)`. -/
def Kart.updatePhysics (ops : AnalyticOps α) (dt accelInput steerInput : α)
    (driftHeld onRoad inDriftZone : Bool) (k0 : Kart α) : Kart α :=
  let r := Kart.effectAndDrift dt accelInput steerInput driftHeld inDriftZone
    { k0 with isOnRoad := onRoad }
  let accel1 := r.1
  let steer1 := r.2.1
  let k2 := r.2.2
  let charging := k2.drift.isCharging
  let steerRate := if charging = true then k2.steeringSpeed * DRIFT_STEERING_MULTIPLIER α
    else k2.steeringSpeed
  let steer2 := if charging = true then
      steer1 * (6 / 10) + k2.drift.driftDirection * (4 / 10)
    else steer1
  let sa := steer2 * steerRate
  let rot := if 1 / 2 < |k2.speed| then
      k2.rotation + sa * dt * (if 0 < k2.speed then 1 else -(1 / 2))
    else k2.rotation
  let eMax := Kart.getEffectiveMaxSpeed k2 onRoad
  let s1 := if 0 < accel1 then k2.speed + k2.acceleration * accel1 * dt
    else if accel1 < 0 then k2.speed - BASE_BRAKE_FORCE α * dt
    else k2.speed
  let friction := if charging = true then BASE_FRICTION α * DRIFT_FRICTION_MULTIPLIER α
    else BASE_FRICTION α
  let s2 := s1 * ops.powf friction (dt * 60)
  let s3 := max (-eMax * (3 / 10)) (min eMax s2)
  let k3 := { k2 with rotation := rot, steerAngle := sa, speed := s3 }
  let fwd := Kart.forward ops k3
  let vel := Vec3.smul s3 fwd
  let pos := Vec3.add k3.position (Vec3.smul dt vel)
  { k3 with velocity := vel, position := { pos with y := 0 } }

/-- kart.ts: `updateProgress(splineT, raceTime)`. -/
def Kart.updateProgress (splineT raceTime : α) (k : Kart α) : Kart α :=
  let k1 := { k with lastCheckpoint := k.checkpoint, checkpoint := splineT }
  let k2 := if 9 / 10 < k1.lastCheckpoint ∧ k1.checkpoint < 1 / 10 ∧ k1.finished = false then
      { k1 with lap := k1.lap + 1,
                lapTimes := k1.lapTimes ++ [raceTime - k1.lapStartTime],
                lapStartTime := raceTime }
    else k1
  let k3 := if k2.lastCheckpoint < 1 / 10 ∧ 9 / 10 < k2.checkpoint ∧ 0 < k2.lap then
      { k2 with lap := k2.lap - 1, lapTimes := k2.lapTimes.dropLast }
    else k2
  { k3 with raceProgress := (k3.lap : α) + k3.checkpoint }

/-- kart.ts: `placeOnGrid(position, heading, splineT)`. -/
def Kart.placeOnGrid (position : Vec3 α) (heading splineT : α) (k : Kart α) : Kart α :=
  { k with
    position := position, rotation := heading, speed := 0,
    velocity := ⟨0, 0, 0⟩, lap := 0, checkpoint := splineT,
    lastCheckpoint := splineT, raceProgress := 0, finished := false,
    finishTime := 0, lapTimes := [], heldItem := none, butterflies := 0,
    gustTimer := 0, wobbleTimer := 0, turboTimer := 0, drift := DriftBoost.init }

end KartOps

/-- Feeding a sequence of checkpoint parameters to `updateProgress` at a fixed
race time. -/
def progressSeq (ts : List ℚ) (rt : ℚ) (k : Kart ℚ) : Kart ℚ :=
  ts.foldl (fun k t => Kart.updateProgress t rt k) k

/-! ## Race position sort (src/ui/ui-manager.ts, RaceManager.updatePositions) -/

/-- The per-kart record built by `updatePositions` before sorting:
`{ idx, progress, finished, finishTime }`. -/
structure PosEntry where
  idx : ℕ
  progress : ℚ
  finished : Bool
  finishTime : ℚ
deriving DecidableEq

/-- The JavaScript sort comparator in `updatePositions` (returns a number;
negative means the first argument sorts earlier). -/
def posCmp (a b : PosEntry) : ℚ :=
  if a.finished = true ∧ b.finished = true then a.finishTime - b.finishTime
  else if a.finished = true then -1
  else if b.finished = true then 1
  else b.progress - a.progress

/-- The total preorder induced by the comparator: `a` sorts no later than `b`. -/
def posLe (a b : PosEntry) : Prop := posCmp a b ≤ 0

instance : DecidableRel posLe := fun a b => by unfold posLe; infer_instance

instance : IsTotal PosEntry posLe := by
  constructor
  intro a b
  unfold posLe posCmp
  by_cases ha : a.finished = true <;> by_cases hb : b.finished = true <;>
    simp [ha, hb] <;> exact le_total _ _

instance : IsTrans PosEntry posLe := by
  constructor
  intro a b c hab hbc
  unfold posLe posCmp at *
  by_cases ha : a.finished = true <;> by_cases hb : b.finished = true <;>
    by_cases hc : c.finished = true <;>
    simp [ha, hb, hc] at * <;> linarith

/-- `Array.prototype.sort` with the comparator above, modelled as insertion
sort over the comparator's induced order (the comparator is consistent, so
any comparison sort yields an order with the same pairwise guarantees). -/
def sortEntries (l : List PosEntry) : List PosEntry :=
  l.insertionSort posLe

/-- `updatePositions`: karts are mapped to their sort records. -/
def toEntries (karts : List (Kart ℚ)) : List PosEntry :=
  karts.enum.map fun p => ⟨p.1, p.2.raceProgress, p.2.finished, p.2.finishTime⟩

/-- `updatePositions`: after the sort, `positions[sorted[pos].idx] = pos`;
here returned as the list of (kart index, 0-based rank) pairs. -/
def updatePositions (karts : List (Kart ℚ)) : List (ℕ × ℕ) :=
  (sortEntries (toEntries karts)).enum.map fun p => (p.2.idx, p.1)

/-! ## Item system (src/gameplay/item-system.ts) -/

/-- constants.ts: `ITEM_GUST_STEER_LOCK = 0.6` (tracks.ts
`ITEM_EFFECTS.gust.steerLockDuration`). -/
def ITEM_GUST_STEER_LOCK : ℚ := 6 / 10

/-- constants.ts: `ITEM_WOBBLE_DURATION = 1.2` (tracks.ts
`ITEM_EFFECTS.wobble.duration`). -/
def ITEM_WOBBLE_DURATION : ℚ := 12 / 10

/-- constants.ts: `ITEM_TURBO_DURATION = 2.5` (tracks.ts
`ITEM_EFFECTS.turbo.duration`). -/
def ITEM_TURBO_DURATION : ℚ := 25 / 10

instance {α : Type} [LinearOrderedField α] : Inhabited (Kart α) :=
  ⟨Kart.create 0 default false⟩

/-- item-system.ts `findTargetAhead`, returning the index of the target kart
in `allKarts` (the method returns the kart object; object identity is
modelled by list index, and `allKarts.indexOf(user)` by the supplied
`userIdx`). `randPick` models the sampled value of
`Math.floor(Math.random() * others.length)`. -/
def findTargetAhead (userIdx : ℕ) (allKarts : List (Kart ℚ)) (positions : List ℕ)
    (randPick : ℕ) : Option ℕ :=
  let randomBranch : Option ℕ :=
    ((List.range allKarts.length).filter fun i =>
      decide ((allKarts[i]?.getD default).id ≠ (allKarts[userIdx]?.getD default).id))[randPick]?
  match positions[userIdx]? with
  | none => randomBranch
  | some userPos =>
    if userPos = 0 then randomBranch
    else (List.range allKarts.length).find? fun i => decide (positions[i]? = some (userPos - 1))

/-- item-system.ts `useItem` (the toast-string version): returns the toast
message (`none` models JS `null`) together with the updated kart list. -/
def useItem (userIdx : ℕ) (allKarts : List (Kart ℚ)) (positions : List ℕ)
    (randPick : ℕ) : Option String × List (Kart ℚ) :=
  let user := allKarts[userIdx]?.getD default
  match user.heldItem with
  | none => (none, allKarts)
  | some itemId =>
    let karts1 := allKarts.set userIdx { user with heldItem := none }
    match itemId with
    | .gust =>
      match findTargetAhead userIdx karts1 positions randPick with
      | none => (none, karts1)
      | some ti =>
        let target := karts1[ti]?.getD default
        let target1 := { target with
          gustTimer := ITEM_GUST_STEER_LOCK, spinAngle := 0,
          drift := DriftBoost.cancel target.drift }
        (some ("💨 Gust hit " ++ target.character.name ++ "!"), karts1.set ti target1)
    | .wobble =>
      match findTargetAhead userIdx karts1 positions randPick with
      | none => (none, karts1)
      | some ti =>
        let target := karts1[ti]?.getD default
        (some ("🌀 Wobble hit " ++ target.character.name ++ "!"),
          karts1.set ti { target with wobbleTimer := ITEM_WOBBLE_DURATION })
    | .turbo =>
      let u1 := karts1[userIdx]?.getD default
      (some "⚡ TURBO!", karts1.set userIdx { u1 with turboTimer := ITEM_TURBO_DURATION })

/-! ## Collision resolver (src/physics/collision.ts) -/

/-- collision.ts: `GRACE_PERIOD = 2` seconds. -/
def GRACE_PERIOD (α : Type) [LinearOrderedField α] : α := 2

/-- Ghost-instrumented kart for the collision specification: records whether
this `resolveCollisions` call gave the kart a barrier push (`barrierHit`) or
involved it in a resolved kart-kart overlap (`bumped`). The two flags are
specification ghosts; projecting them away recovers the source function
(`resolveCollisions` below). -/
structure MKart (α : Type) where
  k : Kart α
  barrierHit : Bool
  bumped : Bool

section CollisionOps

variable {α : Type} [LinearOrderedField α]

instance : Inhabited (MKart α) := ⟨⟨default, false, false⟩⟩

/-- THREE.Vector3 `length` via the sqrt primitive. -/
def Vec3.vlen (ops : AnalyticOps α) (v : Vec3 α) : α :=
  ops.sqrtf (v.x * v.x + v.y * v.y + v.z * v.z)

/-- collision.ts, barrier loop body for one kart (`WALL_PUSH_FORCE * 0.016`
uses the hard-coded 0.016, not a dt argument). -/
def barrierStep (ops : AnalyticOps α) (pushFn : Vec3 α → Option (Vec3 α))
    (m : MKart α) : MKart α :=
  match pushFn m.k.position with
  | none => m
  | some push =>
    let pos1 := Vec3.add m.k.position (Vec3.smul (WALL_PUSH_FORCE α * (16 / 1000)) push)
    let dot := |Vec3.dotv (Kart.forward ops m.k) push|
    let speedLoss := dot * (1 - WALL_BOUNCE_FACTOR α)
    let s1 := m.k.speed * (1 - speedLoss)
    let s2 := max s1 3
    ⟨{ m.k with position := pos1, speed := s2 }, true, m.bumped⟩

/-- collision.ts, kart-kart loop body for the index pair `(i, j)`. -/
def pairStep (ops : AnalyticOps α) (l : List (MKart α)) (ij : ℕ × ℕ) : List (MKart α) :=
  let a := l[ij.1]?.getD default
  let b := l[ij.2]?.getD default
  let v0 := Vec3.sub b.k.position a.k.position
  let v := { v0 with y := (0 : α) }
  let dist := Vec3.vlen ops v
  let minDist := a.k.collisionRadius + b.k.collisionRadius
  if dist < minDist ∧ 1 / 100 < dist then
    let overlap := minDist - dist
    let normal := Vec3.smul (1 / dist) v
    let totalWeight := a.k.weight + b.k.weight
    let aRatio := b.k.weight / totalWeight
    let bRatio := a.k.weight / totalWeight
    let aPos := Vec3.add a.k.position (Vec3.smul (-overlap * aRatio) normal)
    let bPos := Vec3.add b.k.position (Vec3.smul (overlap * bRatio) normal)
    let relSpeed := a.k.speed - b.k.speed
    let aS := max (a.k.speed - relSpeed * KART_BOUNCE_FACTOR α * aRatio) 2
    let bS := max (b.k.speed + relSpeed * KART_BOUNCE_FACTOR α * bRatio) 2
    (l.set ij.1 ⟨{ a.k with position := aPos, speed := aS }, a.barrierHit, true⟩).set ij.2
      ⟨{ b.k with position := bPos, speed := bS }, b.barrierHit, true⟩
  else l

/-- The fixed `i < j` iteration order of the kart-kart double loop. -/
def kartPairs (n : ℕ) : List (ℕ × ℕ) :=
  (List.range n).flatMap fun i =>
    ((List.range n).filter fun j => decide (i < j)).map fun j => (i, j)

/-- The JavaScript comparison `raceTime < c` where `raceTime` may be
`Infinity` (modelled as `none`; `Infinity < c` is false). -/
def raceTimeLt (raceTime : Option α) (c : α) : Bool :=
  match raceTime with
  | none => false
  | some t => decide (t < c)

/-- collision.ts `resolveCollisions` with ghost instrumentation. The track is
abstracted by its `getBarrierPush` interface, the only query the resolver
makes. -/
def resolveCollisionsM (ops : AnalyticOps α) (karts : List (MKart α))
    (pushFn : Vec3 α → Option (Vec3 α)) (raceTime : Option α) : List (MKart α) :=
  let karts1 := karts.map (barrierStep ops pushFn)
  if raceTimeLt raceTime (GRACE_PERIOD α) then karts1
  else (kartPairs karts1.length).foldl (pairStep ops) karts1

/-- collision.ts `resolveCollisions(karts, track, raceTime = Infinity)`: the
source function, with the ghost flags projected away. -/
def resolveCollisions (ops : AnalyticOps α) (karts : List (Kart α))
    (pushFn : Vec3 α → Option (Vec3 α)) (raceTime : Option α) : List (Kart α) :=
  (resolveCollisionsM ops (karts.map fun k => ⟨k, false, false⟩) pushFn raceTime).map (·.k)

/-- The collision speed-floor invariant: bumped karts have speed at least 2,
and barrier-pushed karts not (yet) bumped have speed at least 3. -/
def speedInv (l : List (MKart α)) : Prop :=
  ∀ m ∈ l, (m.bumped = true → 2 ≤ m.k.speed)
    ∧ (m.barrierHit = true → m.bumped = false → 3 ≤ m.k.speed)

end CollisionOps

/-- A kart pressed just past the soft wall (z = -6) at speed 10, used in the
C5 counterexample. -/
noncomputable def cexKartA : Kart ℝ :=
  { Kart.create 0 default false with position := ⟨0, 0, -6⟩, speed := 10 }

/-- A reversing kart overlapping `cexKartA` after its wall push. -/
noncomputable def cexKartB : Kart ℝ :=
  { Kart.create 1 default false with position := ⟨0, 0, -(4872 / 1000)⟩, speed := -20 }

/-- A straight soft wall at z = -5 pushing toward +z: the `getBarrierPush`
interface of a wide straight track running along the x axis. -/
noncomputable def cexWall : Vec3 ℝ → Option (Vec3 ℝ) :=
  fun p => if p.z < -5 then some ⟨0, 0, 1⟩ else none

/-- A kart at the origin at speed 10, overlapping `cexNearB`. -/
noncomputable def cexNearA : Kart ℝ := { Kart.create 0 default false with speed := 10 }

/-- A stationary kart one unit away from `cexNearA`. -/
noncomputable def cexNearB : Kart ℝ := { Kart.create 1 default false with position := ⟨0, 0, 1⟩ }

lemma tierOf_le_three (c : ℚ) : tierOf c ≤ 3 := by
  unfold tierOf; split_ifs <;> omega

lemma tierOf_mono {c c' : ℚ} (h : c ≤ c') : tierOf c ≤ tierOf c' := by
  unfold tierOf
  split_ifs <;> first | omega | (exfalso; linarith)

lemma tierOf_eq_three {c : ℚ} (h : 105 / 100 ≤ c) : tierOf c = 3 := by
  unfold tierOf; rw [if_pos h]

lemma tierOf_eq_two {c : ℚ} (h3 : ¬105 / 100 ≤ c) (h2 : 7 / 10 ≤ c) : tierOf c = 2 := by
  unfold tierOf; rw [if_neg h3, if_pos h2]

lemma tierOf_eq_one {c : ℚ} (h3 : ¬105 / 100 ≤ c) (h2 : ¬7 / 10 ≤ c)
    (h1 : 35 / 100 ≤ c) : tierOf c = 1 := by
  unfold tierOf; rw [if_neg h3, if_neg h2, if_pos h1]

lemma tierOf_eq_zero {c : ℚ} (h3 : ¬105 / 100 ≤ c) (h2 : ¬7 / 10 ≤ c)
    (h1 : ¬35 / 100 ≤ c) : tierOf c = 0 := by
  unfold tierOf; rw [if_neg h3, if_neg h2, if_neg h1]

lemma tier_le_update {α : Type} [LinearOrderedField α]
    (d : DriftBoost α) (dt : α) (z : Bool) : d.tier ≤ (DriftBoost.update dt z d).tier := by
  obtain ⟨st, tr, ct, bt, cdl, dd⟩ := d
  cases st with
  | idle => exact Nat.le.refl
  | boosting => simp only [DriftBoost.update]; split_ifs <;> exact Nat.le.refl
  | cooldown => simp only [DriftBoost.update]; split_ifs <;> exact Nat.le.refl
  | charging =>
    simp only [DriftBoost.update]
    split_ifs <;> first | exact Nat.le.refl | (rename_i h; exact Nat.le_of_lt h.2)

lemma update_charging_spec (d : DriftBoost ℚ) (dt : ℚ) (hst : d.state = .charging)
    (hdt : 0 ≤ dt) (htier : d.tier = tierOf d.chargeTime) :
    (DriftBoost.update dt false d).state = .charging
    ∧ (DriftBoost.update dt false d).chargeTime = d.chargeTime + dt
    ∧ (DriftBoost.update dt false d).tier = tierOf (d.chargeTime + dt) := by
  obtain ⟨st, tr, ct, bt, cdl, dd⟩ := d
  have hst' : st = .charging := hst
  subst hst'
  have htr : tr = tierOf ct := htier
  refine ⟨rfl, by simp [DriftBoost.update], ?_⟩
  have hct : ct ≤ ct + dt := by linarith
  have key : (DriftBoost.update dt false (⟨.charging, tr, ct, bt, cdl, dd⟩ : DriftBoost ℚ)).tier
      = (if 105 / 100 ≤ ct + dt ∧ tr < 3 then 3
         else if 7 / 10 ≤ ct + dt ∧ tr < 2 then 2
         else if 35 / 100 ≤ ct + dt ∧ tr < 1 then 1
         else tr) := by
    simp [DriftBoost.update, DRIFT_TIER_THRESHOLDS, ge_iff_le]
  rw [key]
  have hle3 : tr ≤ 3 := htr ▸ tierOf_le_three ct
  have hmono : tr ≤ tierOf (ct + dt) := htr ▸ tierOf_mono hct
  by_cases hA : 105 / 100 ≤ ct + dt
  · rw [tierOf_eq_three hA]
    by_cases hB : tr < 3
    · rw [if_pos ⟨hA, hB⟩]
    · rw [if_neg (fun hc => hB hc.2), if_neg (fun hc => by omega),
        if_neg (fun hc => by omega)]
      omega
  · by_cases hB : 7 / 10 ≤ ct + dt
    · rw [tierOf_eq_two hA hB] at *
      rw [if_neg (fun hc => hA hc.1)]
      by_cases hC : tr < 2
      · rw [if_pos ⟨hB, hC⟩]
      · rw [if_neg (fun hc => hC hc.2), if_neg (fun hc => by omega)]
        omega
    · by_cases hC : 35 / 100 ≤ ct + dt
      · rw [tierOf_eq_one hA hB hC] at *
        rw [if_neg (fun hc => hA hc.1), if_neg (fun hc => hB hc.1)]
        by_cases hD : tr < 1
        · rw [if_pos ⟨hC, hD⟩]
        · rw [if_neg (fun hc => hD hc.2)]
          omega
      · rw [tierOf_eq_zero hA hB hC] at *
        rw [if_neg (fun hc => hA hc.1), if_neg (fun hc => hB hc.1),
          if_neg (fun hc => hC hc.1)]
        omega

lemma chargeUpdates_spec (dts : List ℚ) (d : DriftBoost ℚ) (hst : d.state = .charging)
    (hpos : ∀ x ∈ dts, 0 ≤ x) (htier : d.tier = tierOf d.chargeTime) :
    (chargeUpdates dts d).state = .charging
    ∧ (chargeUpdates dts d).chargeTime = d.chargeTime + dts.sum
    ∧ (chargeUpdates dts d).tier = tierOf (d.chargeTime + dts.sum) := by
  induction dts generalizing d with
  | nil =>
    simp only [chargeUpdates, List.foldl_nil, List.sum_nil, add_zero]
    exact ⟨hst, trivial, htier⟩
  | cons x xs ih =>
    have hx : (0 : ℚ) ≤ x := hpos x (List.mem_cons_self x xs)
    have step := update_charging_spec d x hst hx htier
    have tail := ih (DriftBoost.update x false d) step.1
      (fun y hy => hpos y (List.mem_cons_of_mem x hy))
      (by rw [step.2.2, step.2.1])
    have hfold : chargeUpdates (x :: xs) d = chargeUpdates xs (DriftBoost.update x false d) := rfl
    rw [hfold]
    refine ⟨tail.1, ?_, ?_⟩
    · rw [tail.2.1, step.2.1, List.sum_cons]; ring
    · rw [tail.2.2, step.2.1, List.sum_cons]; ring_nf

lemma release_tier3 (d : DriftBoost ℚ) (hst : d.state = .charging) (htier : d.tier = 3) :
    (DriftBoost.release d).1 = 3 / 2
    ∧ (DriftBoost.release d).2.state = .boosting
    ∧ (DriftBoost.release d).2.boostTimeLeft = 3 / 2
    ∧ (DriftBoost.release d).2.tier = 3 := by
  obtain ⟨st, tr, ct, bt, cdl, dd⟩ := d
  have hst' : st = .charging := hst
  have htr : tr = 3 := htier
  subst hst'; subst htr
  simp only [DriftBoost.release, DRIFT_BOOST_DURATIONS, List.getD_cons_zero,
    List.getD_cons_succ]
  norm_num

lemma update_boosting_done (d : DriftBoost ℚ) (dt : ℚ) (hst : d.state = .boosting)
    (hbt : d.boostTimeLeft - dt ≤ 0) :
    (DriftBoost.update dt false d).state = .cooldown
    ∧ (DriftBoost.update dt false d).cooldownLeft = 15 / 100 := by
  obtain ⟨st, tr, ct, bt, cdl, dd⟩ := d
  have hst' : st = .boosting := hst
  subst hst'
  have hbt' : bt - dt ≤ 0 := hbt
  simp only [DriftBoost.update]
  rw [if_pos hbt']
  exact ⟨rfl, rfl⟩

lemma update_cooldown_done (d : DriftBoost ℚ) (dt : ℚ) (hst : d.state = .cooldown)
    (hcd : d.cooldownLeft - dt ≤ 0) :
    (DriftBoost.update dt false d).state = .idle := by
  obtain ⟨st, tr, ct, bt, cdl, dd⟩ := d
  have hst' : st = .cooldown := hst
  subst hst'
  have hcd' : cdl - dt ≤ 0 := hcd
  simp only [DriftBoost.update]
  rw [if_pos hcd']

/-- Claim C2: during a charging episode the tier never decreases under
`update` (thresholds checked highest-first, so a single large `dt` can jump
straight to tier 3), and the tier is reset to `0` only by `cancel()` or
`release()` (in fact only `cancel()` zeroes it; `release()` leaves it, and
`startDrift` is a no-op while charging). -/
theorem claim_C2 (d : DriftBoost ℚ) (op : DriftOp ℚ) (dt : ℚ) (z : Bool) :
    d.tier ≤ (DriftBoost.update dt z d).tier
    ∧ (d.state = .charging → d.tier ≠ 0 → (driftStep op d).tier = 0 →
        op = DriftOp.cancelOp ∨ op = DriftOp.releaseOp)
    ∧ (driftStep DriftOp.cancelOp d).tier = 0
    ∧ (DriftBoost.update (11 / 10) false
        ((DriftBoost.startDrift 1 (DriftBoost.init : DriftBoost ℚ)).2)).tier = 3 := by
  refine ⟨tier_le_update d dt z, ?_, ?_, by
    norm_num [DriftBoost.update, DriftBoost.startDrift, DriftBoost.init,
      DRIFT_TIER_THRESHOLDS, DRIFT_ZONE_CHARGE_MULTIPLIER]⟩
  · intro hst htr hz
    cases op with
    | updateOp dt' z' =>
      exact absurd hz (by have := tier_le_update d dt' z'; simp only [driftStep]; omega)
    | startOp s =>
      exfalso
      obtain ⟨st, tr, ct, bt, cdl, dd⟩ := d
      have hst' : st = .charging := hst
      subst hst'
      have htr' : tr ≠ 0 := htr
      have : (driftStep (DriftOp.startOp s)
          (⟨.charging, tr, ct, bt, cdl, dd⟩ : DriftBoost ℚ)).tier = tr := by
        simp [driftStep, DriftBoost.startDrift]
      rw [this] at hz
      exact htr' hz
    | releaseOp =>
      exact Or.inr rfl
    | cancelOp =>
      exact Or.inl rfl
  · obtain ⟨st, tr, ct, bt, cdl, dd⟩ := d
    rfl

/-- Witness for C2 at a concrete charging state of tier 1. -/
theorem claim_C2_wit :
    ((⟨.charging, 1, 1 / 2, 0, 0, 1⟩ : DriftBoost ℚ).state = .charging)
    ∧ ((⟨.charging, 1, 1 / 2, 0, 0, 1⟩ : DriftBoost ℚ).tier ≠ 0)
    ∧ ((DriftOp.cancelOp : DriftOp ℚ) = DriftOp.cancelOp
        ∨ (DriftOp.cancelOp : DriftOp ℚ) = DriftOp.releaseOp) :=
  ⟨rfl, by decide,
    (claim_C2 (⟨.charging, 1, 1 / 2, 0, 0, 1⟩ : DriftBoost ℚ) DriftOp.cancelOp 0 false).2.1
      rfl (by decide) rfl⟩

/-- Claim C3: starting a drift outside a drift zone and accumulating at least
1.05 seconds of charge over any nonnegative `update` steps yields tier 3;
`release()` then returns a 1.5 second boost, enters the boosting state with a
1.35 speed multiplier, and once the boost time has elapsed the machine enters
cooldown (0.15 s) and then returns to idle. -/
theorem claim_C3 (dts : List ℚ) (hpos : ∀ x ∈ dts, 0 ≤ x) (hsum : 105 / 100 ≤ dts.sum)
    (t₁ t₂ : ℚ) (ht₁ : 3 / 2 ≤ t₁) (ht₂ : 3 / 20 ≤ t₂) :
    (chargeUpdates dts (DriftBoost.startDrift 1 (DriftBoost.init : DriftBoost ℚ)).2).tier = 3
    ∧ (DriftBoost.release
        (chargeUpdates dts (DriftBoost.startDrift 1 DriftBoost.init).2)).1 = 3 / 2
    ∧ (DriftBoost.release
        (chargeUpdates dts (DriftBoost.startDrift 1 DriftBoost.init).2)).2.state = .boosting
    ∧ DriftBoost.speedMultiplier
        (DriftBoost.release (chargeUpdates dts (DriftBoost.startDrift 1 DriftBoost.init).2)).2
        = 135 / 100
    ∧ (DriftBoost.update t₁ false
        (DriftBoost.release (chargeUpdates dts (DriftBoost.startDrift 1 DriftBoost.init).2)).2).state
        = .cooldown
    ∧ (DriftBoost.update t₁ false
        (DriftBoost.release (chargeUpdates dts (DriftBoost.startDrift 1 DriftBoost.init).2)).2).cooldownLeft
        = 15 / 100
    ∧ (DriftBoost.update t₂ false (DriftBoost.update t₁ false
        (DriftBoost.release (chargeUpdates dts (DriftBoost.startDrift 1 DriftBoost.init).2)).2)).state
        = .idle := by
  set d₀ := (DriftBoost.startDrift 1 (DriftBoost.init : DriftBoost ℚ)).2 with hd₀
  have hd₀st : d₀.state = .charging := by rw [hd₀]; rfl
  have hd₀tier : d₀.tier = tierOf d₀.chargeTime := by
    rw [hd₀]; norm_num [DriftBoost.startDrift, DriftBoost.init, tierOf]
  have fold := chargeUpdates_spec dts d₀ hd₀st hpos hd₀tier
  have hct : d₀.chargeTime = 0 := by rw [hd₀]; rfl
  have htier3 : (chargeUpdates dts d₀).tier = 3 := by
    rw [fold.2.2, hct, zero_add]
    unfold tierOf
    rw [if_pos hsum]
  have rel := release_tier3 (chargeUpdates dts d₀) fold.1 htier3
  have hboost := update_boosting_done (DriftBoost.release (chargeUpdates dts d₀)).2 t₁
    rel.2.1 (by rw [rel.2.2.1]; linarith)
  have hcool := update_cooldown_done
    (DriftBoost.update t₁ false (DriftBoost.release (chargeUpdates dts d₀)).2) t₂
    hboost.1 (by rw [hboost.2]; linarith)
  refine ⟨htier3, rel.1, rel.2.1, ?_, hboost.1, hboost.2, hcool⟩
  rw [DriftBoost.speedMultiplier, if_pos rel.2.1, DRIFT_BOOST_MULTIPLIER]

/-- Witness for C3: exactly 1.06 seconds of charging in two steps, then a
1.5 second boost tick and a 0.15 second cooldown tick. -/
theorem claim_C3_wit :
    (∀ x ∈ [(53 : ℚ) / 100, 53 / 100], 0 ≤ x)
    ∧ (105 / 100 : ℚ) ≤ [(53 : ℚ) / 100, 53 / 100].sum
    ∧ ((chargeUpdates [(53 : ℚ) / 100, 53 / 100]
        (DriftBoost.startDrift 1 (DriftBoost.init : DriftBoost ℚ)).2).tier = 3
      ∧ (DriftBoost.release
          (chargeUpdates [(53 : ℚ) / 100, 53 / 100]
            (DriftBoost.startDrift 1 DriftBoost.init).2)).1 = 3 / 2
      ∧ (DriftBoost.release
          (chargeUpdates [(53 : ℚ) / 100, 53 / 100]
            (DriftBoost.startDrift 1 DriftBoost.init).2)).2.state = .boosting
      ∧ DriftBoost.speedMultiplier
          (DriftBoost.release (chargeUpdates [(53 : ℚ) / 100, 53 / 100]
            (DriftBoost.startDrift 1 DriftBoost.init).2)).2 = 135 / 100
      ∧ (DriftBoost.update (3 / 2) false
          (DriftBoost.release (chargeUpdates [(53 : ℚ) / 100, 53 / 100]
            (DriftBoost.startDrift 1 DriftBoost.init).2)).2).state = .cooldown
      ∧ (DriftBoost.update (3 / 2) false
          (DriftBoost.release (chargeUpdates [(53 : ℚ) / 100, 53 / 100]
            (DriftBoost.startDrift 1 DriftBoost.init).2)).2).cooldownLeft = 15 / 100
      ∧ (DriftBoost.update (3 / 20) false (DriftBoost.update (3 / 2) false
          (DriftBoost.release (chargeUpdates [(53 : ℚ) / 100, 53 / 100]
            (DriftBoost.startDrift 1 DriftBoost.init).2)).2)).state = .idle) :=
  ⟨by norm_num [List.forall_mem_cons], by norm_num,
    claim_C3 [(53 : ℚ) / 100, 53 / 100] (by norm_num [List.forall_mem_cons])
      (by norm_num) (3 / 2) (3 / 20) (by norm_num) (by norm_num)⟩

/-- Claim C8: `computeScore` adds the position bonus from the table
`[10, 7, 5, 4, 3, 2, 1, 0]` to the butterfly count (13, 0, 15 on the three
quoted examples), and any position beyond the table contributes a safe
default bonus of 0 instead of failing. -/
theorem claim_C8 :
    computeScore 0 3 = 13
    ∧ computeScore 7 0 = 0
    ∧ computeScore 2 10 = 15
    ∧ ∀ position butterflies : ℕ, 8 ≤ position →
        computeScore position butterflies = 0 + butterflies := by
  refine ⟨by decide, by decide, by decide, ?_⟩
  intro position butterflies hpos
  have h0 : POSITION_BONUS.getD position 0 = 0 := by
    apply List.getD_eq_default
    simpa [POSITION_BONUS] using hpos
  unfold computeScore
  rw [h0]

/-- Witness for C8 at the out-of-range position 11. -/
theorem claim_C8_wit : 8 ≤ 11 ∧ computeScore 11 5 = 0 + 5 :=
  ⟨by decide, claim_C8.2.2.2 11 5 (by decide)⟩

section ProgressLemmas

variable {α : Type} [LinearOrderedField α]

lemma updateProgress_fields (t rt : α) (k : Kart α) :
    (Kart.updateProgress t rt k).checkpoint = t
    ∧ (Kart.updateProgress t rt k).finished = k.finished := by
  simp only [Kart.updateProgress]
  split_ifs <;> exact ⟨rfl, rfl⟩

lemma updateProgress_lap_same (t rt : α) (k : Kart α)
    (h1 : ¬(9 / 10 < k.checkpoint ∧ t < 1 / 10 ∧ k.finished = false))
    (h2 : ¬(k.checkpoint < 1 / 10 ∧ 9 / 10 < t ∧ 0 < k.lap)) :
    (Kart.updateProgress t rt k).lap = k.lap := by
  simp only [Kart.updateProgress]
  rw [if_neg h1]
  rw [if_neg h2]

lemma updateProgress_lap_inc (t rt : α) (k : Kart α)
    (hcp : 9 / 10 < k.checkpoint) (ht : t < 1 / 10) (hfin : k.finished = false) :
    (Kart.updateProgress t rt k).lap = k.lap + 1 := by
  simp only [Kart.updateProgress]
  split_ifs with h1 h2 h3
  · exact absurd h2.2.1 (show ¬(9 / 10 < t) from by linarith)
  · rfl
  · exact absurd ⟨hcp, ht, hfin⟩ h1
  · exact absurd ⟨hcp, ht, hfin⟩ h1

lemma updateProgress_lap_dec (t rt : α) (k : Kart α)
    (hcp : k.checkpoint < 1 / 10) (ht : 9 / 10 < t) (hlap : 0 < k.lap) :
    (Kart.updateProgress t rt k).lap = k.lap - 1 := by
  simp only [Kart.updateProgress]
  split_ifs with h1 h2 h3
  · exact absurd h1.1 (show ¬(9 / 10 < k.checkpoint) from by linarith)
  · exact absurd h1.1 (show ¬(9 / 10 < k.checkpoint) from by linarith)
  · rfl
  · exact absurd ⟨hcp, ht, hlap⟩ h3

end ProgressLemmas

/-- Claim C6: from a mid-track pre-state, the checkpoint sequence
0.95, 0.98, 0.02, 0.05 on an unfinished kart increments the lap exactly once
(on the 0.98 to 0.02 step); the reverse sequence 0.05, 0.02, 0.98, 0.95 on a
kart with a positive lap decrements it exactly once (on the 0.02 to 0.98
step); the full forward-then-backward traversal leaves the lap unchanged. -/
theorem claim_C6 (k kr : Kart ℚ) (rt : ℚ)
    (hfin : k.finished = false) (hlo : 1 / 10 ≤ k.checkpoint) (hhi : k.checkpoint ≤ 9 / 10)
    (hlap : 0 < kr.lap) (hlor : 1 / 10 ≤ kr.checkpoint) (hhir : kr.checkpoint ≤ 9 / 10) :
    (progressSeq [95 / 100] rt k).lap = k.lap
    ∧ (progressSeq [95 / 100, 98 / 100] rt k).lap = k.lap
    ∧ (progressSeq [95 / 100, 98 / 100, 2 / 100] rt k).lap = k.lap + 1
    ∧ (progressSeq [95 / 100, 98 / 100, 2 / 100, 5 / 100] rt k).lap = k.lap + 1
    ∧ (progressSeq [5 / 100] rt kr).lap = kr.lap
    ∧ (progressSeq [5 / 100, 2 / 100] rt kr).lap = kr.lap
    ∧ (progressSeq [5 / 100, 2 / 100, 98 / 100] rt kr).lap = kr.lap - 1
    ∧ (progressSeq [5 / 100, 2 / 100, 98 / 100, 95 / 100] rt kr).lap = kr.lap - 1
    ∧ (progressSeq [95 / 100, 98 / 100, 2 / 100, 5 / 100, 5 / 100, 2 / 100, 98 / 100, 95 / 100]
        rt k).lap = k.lap := by
  -- forward chain
  have s1l : (Kart.updateProgress (95 / 100) rt k).lap = k.lap :=
    updateProgress_lap_same _ _ _ (fun hc => absurd hc.1 (by linarith))
      (fun hc => absurd hc.1 (by linarith))
  have s1c : (Kart.updateProgress (95 / 100) rt k).checkpoint = 95 / 100 :=
    (updateProgress_fields _ _ _).1
  have s1f : (Kart.updateProgress (95 / 100) rt k).finished = false :=
    (updateProgress_fields _ _ _).2.trans hfin
  set s1 := Kart.updateProgress (95 / 100) rt k
  have s2l : (Kart.updateProgress (98 / 100) rt s1).lap = k.lap := by
    rw [updateProgress_lap_same _ _ _ (fun hc => absurd hc.2.1 (by norm_num))
      (fun hc => absurd (s1c ▸ hc.1) (by norm_num)), s1l]
  have s2c : (Kart.updateProgress (98 / 100) rt s1).checkpoint = 98 / 100 :=
    (updateProgress_fields _ _ _).1
  have s2f : (Kart.updateProgress (98 / 100) rt s1).finished = false :=
    (updateProgress_fields _ _ _).2.trans s1f
  set s2 := Kart.updateProgress (98 / 100) rt s1
  have s3l : (Kart.updateProgress (2 / 100) rt s2).lap = k.lap + 1 := by
    rw [updateProgress_lap_inc _ _ _ (by rw [s2c]; norm_num) (by norm_num) s2f, s2l]
  have s3c : (Kart.updateProgress (2 / 100) rt s2).checkpoint = 2 / 100 :=
    (updateProgress_fields _ _ _).1
  have s3f : (Kart.updateProgress (2 / 100) rt s2).finished = false :=
    (updateProgress_fields _ _ _).2.trans s2f
  set s3 := Kart.updateProgress (2 / 100) rt s2
  have s4l : (Kart.updateProgress (5 / 100) rt s3).lap = k.lap + 1 := by
    rw [updateProgress_lap_same _ _ _ (fun hc => absurd (s3c ▸ hc.1) (by norm_num))
      (fun hc => absurd hc.2.1 (by norm_num)), s3l]
  have s4c : (Kart.updateProgress (5 / 100) rt s3).checkpoint = 5 / 100 :=
    (updateProgress_fields _ _ _).1
  have s4f : (Kart.updateProgress (5 / 100) rt s3).finished = false :=
    (updateProgress_fields _ _ _).2.trans s3f
  set s4 := Kart.updateProgress (5 / 100) rt s3
  -- backward chain from an arbitrary mid-track kart with a positive lap
  have r1l : (Kart.updateProgress (5 / 100) rt kr).lap = kr.lap :=
    updateProgress_lap_same _ _ _ (fun hc => absurd hc.1 (by linarith))
      (fun hc => absurd hc.1 (by linarith))
  have r1c : (Kart.updateProgress (5 / 100) rt kr).checkpoint = 5 / 100 :=
    (updateProgress_fields _ _ _).1
  set r1 := Kart.updateProgress (5 / 100) rt kr
  have r2l : (Kart.updateProgress (2 / 100) rt r1).lap = kr.lap := by
    rw [updateProgress_lap_same _ _ _ (fun hc => absurd (r1c ▸ hc.1) (by norm_num))
      (fun hc => absurd hc.2.1 (by norm_num)), r1l]
  have r2c : (Kart.updateProgress (2 / 100) rt r1).checkpoint = 2 / 100 :=
    (updateProgress_fields _ _ _).1
  set r2 := Kart.updateProgress (2 / 100) rt r1
  have r3l : (Kart.updateProgress (98 / 100) rt r2).lap = kr.lap - 1 := by
    rw [updateProgress_lap_dec _ _ _ (by rw [r2c]; norm_num) (by norm_num)
      (by rw [r2l]; exact hlap), r2l]
  have r3c : (Kart.updateProgress (98 / 100) rt r2).checkpoint = 98 / 100 :=
    (updateProgress_fields _ _ _).1
  set r3 := Kart.updateProgress (98 / 100) rt r2
  have r4l : (Kart.updateProgress (95 / 100) rt r3).lap = kr.lap - 1 := by
    rw [updateProgress_lap_same _ _ _ (fun hc => absurd hc.2.1 (by norm_num))
      (fun hc => absurd (r3c ▸ hc.1) (by norm_num)), r3l]
  -- backward chain continuing from the forward end state s4
  have q1l : (Kart.updateProgress (5 / 100) rt s4).lap = k.lap + 1 := by
    rw [updateProgress_lap_same _ _ _ (fun hc => absurd (s4c ▸ hc.1) (by norm_num))
      (fun hc => absurd hc.2.1 (by norm_num)), s4l]
  have q1c : (Kart.updateProgress (5 / 100) rt s4).checkpoint = 5 / 100 :=
    (updateProgress_fields _ _ _).1
  set q1 := Kart.updateProgress (5 / 100) rt s4
  have q2l : (Kart.updateProgress (2 / 100) rt q1).lap = k.lap + 1 := by
    rw [updateProgress_lap_same _ _ _ (fun hc => absurd (q1c ▸ hc.1) (by norm_num))
      (fun hc => absurd hc.2.1 (by norm_num)), q1l]
  have q2c : (Kart.updateProgress (2 / 100) rt q1).checkpoint = 2 / 100 :=
    (updateProgress_fields _ _ _).1
  set q2 := Kart.updateProgress (2 / 100) rt q1
  have q3l : (Kart.updateProgress (98 / 100) rt q2).lap = k.lap := by
    rw [updateProgress_lap_dec _ _ _ (by rw [q2c]; norm_num) (by norm_num)
      (by rw [q2l]; exact Nat.succ_pos _), q2l]
    omega
  have q3c : (Kart.updateProgress (98 / 100) rt q2).checkpoint = 98 / 100 :=
    (updateProgress_fields _ _ _).1
  set q3 := Kart.updateProgress (98 / 100) rt q2
  have q4l : (Kart.updateProgress (95 / 100) rt q3).lap = k.lap := by
    rw [updateProgress_lap_same _ _ _ (fun hc => absurd hc.2.1 (by norm_num))
      (fun hc => absurd (q3c ▸ hc.1) (by norm_num)), q3l]
  exact ⟨s1l, s2l, s3l, s4l, r1l, r2l, r3l, r4l, q4l⟩

/-- Witness for C6: a kart freshly placed on the grid at parameter 0.5 for
the forward and round-trip parts, and the same kart advanced to lap 1 for the
reverse part. -/
theorem claim_C6_wit :
    ((Kart.placeOnGrid ⟨0, 0, 0⟩ 0 (1 / 2) (Kart.create 0 default false : Kart ℚ)).finished
        = false)
    ∧ ((1 : ℚ) / 10
        ≤ (Kart.placeOnGrid ⟨0, 0, 0⟩ 0 (1 / 2) (Kart.create 0 default false : Kart ℚ)).checkpoint)
    ∧ (0 < ({ Kart.placeOnGrid ⟨0, 0, 0⟩ 0 (1 / 2) (Kart.create 0 default false : Kart ℚ) with
          lap := 1 } : Kart ℚ).lap)
    ∧ (progressSeq [95 / 100, 98 / 100, 2 / 100] 7
        (Kart.placeOnGrid ⟨0, 0, 0⟩ 0 (1 / 2) (Kart.create 0 default false : Kart ℚ))).lap
      = (Kart.placeOnGrid ⟨0, 0, 0⟩ 0 (1 / 2) (Kart.create 0 default false : Kart ℚ)).lap + 1
    ∧ (progressSeq [5 / 100, 2 / 100, 98 / 100] 7
        ({ Kart.placeOnGrid ⟨0, 0, 0⟩ 0 (1 / 2) (Kart.create 0 default false : Kart ℚ) with
          lap := 1 } : Kart ℚ)).lap
      = ({ Kart.placeOnGrid ⟨0, 0, 0⟩ 0 (1 / 2) (Kart.create 0 default false : Kart ℚ) with
          lap := 1 } : Kart ℚ).lap - 1 := by
  refine ⟨rfl, by norm_num [Kart.placeOnGrid], by norm_num, ?_, ?_⟩
  · exact (claim_C6 _ ({ Kart.placeOnGrid ⟨0, 0, 0⟩ 0 (1 / 2) (Kart.create 0 default false) with
      lap := 1 } : Kart ℚ) 7 rfl (by norm_num [Kart.placeOnGrid]) (by norm_num [Kart.placeOnGrid])
      (by norm_num) (by norm_num [Kart.placeOnGrid]) (by norm_num [Kart.placeOnGrid])).2.2.1
  · exact (claim_C6 (Kart.placeOnGrid ⟨0, 0, 0⟩ 0 (1 / 2) (Kart.create 0 default false)) _ 7
      rfl (by norm_num [Kart.placeOnGrid]) (by norm_num [Kart.placeOnGrid])
      (by norm_num) (by norm_num [Kart.placeOnGrid]) (by norm_num [Kart.placeOnGrid])).2.2.2.2.2.2.1

/-- Claim C9 (amended): `placeOnGrid` clears all transient race and physics
state (speed, velocity, lap, race progress, finished flag, finish time, lap
times, held item, butterfly count, gust/wobble/turbo timers, drift sub-state)
while setting checkpoint and lastCheckpoint to the supplied grid spline
parameter, and preserves identity and character-derived fields. -/
theorem claim_C9 (k : Kart ℚ) (pos : Vec3 ℚ) (heading splineT : ℚ) :
    (Kart.placeOnGrid pos heading splineT k).speed = 0
    ∧ (Kart.placeOnGrid pos heading splineT k).velocity = ⟨0, 0, 0⟩
    ∧ (Kart.placeOnGrid pos heading splineT k).lap = 0
    ∧ (Kart.placeOnGrid pos heading splineT k).checkpoint = splineT
    ∧ (Kart.placeOnGrid pos heading splineT k).lastCheckpoint = splineT
    ∧ (Kart.placeOnGrid pos heading splineT k).raceProgress = 0
    ∧ (Kart.placeOnGrid pos heading splineT k).finished = false
    ∧ (Kart.placeOnGrid pos heading splineT k).finishTime = 0
    ∧ (Kart.placeOnGrid pos heading splineT k).lapTimes = []
    ∧ (Kart.placeOnGrid pos heading splineT k).heldItem = none
    ∧ (Kart.placeOnGrid pos heading splineT k).butterflies = 0
    ∧ (Kart.placeOnGrid pos heading splineT k).gustTimer = 0
    ∧ (Kart.placeOnGrid pos heading splineT k).wobbleTimer = 0
    ∧ (Kart.placeOnGrid pos heading splineT k).turboTimer = 0
    ∧ (Kart.placeOnGrid pos heading splineT k).drift = DriftBoost.init
    ∧ (Kart.placeOnGrid pos heading splineT k).position = pos
    ∧ (Kart.placeOnGrid pos heading splineT k).rotation = heading
    ∧ (Kart.placeOnGrid pos heading splineT k).id = k.id
    ∧ (Kart.placeOnGrid pos heading splineT k).character = k.character
    ∧ (Kart.placeOnGrid pos heading splineT k).isHuman = k.isHuman
    ∧ (Kart.placeOnGrid pos heading splineT k).maxSpeed = k.maxSpeed
    ∧ (Kart.placeOnGrid pos heading splineT k).acceleration = k.acceleration
    ∧ (Kart.placeOnGrid pos heading splineT k).steeringSpeed = k.steeringSpeed
    ∧ (Kart.placeOnGrid pos heading splineT k).weight = k.weight :=
  ⟨rfl, rfl, rfl, rfl, rfl, rfl, rfl, rfl, rfl, rfl, rfl, rfl, rfl, rfl, rfl,
   rfl, rfl, rfl, rfl, rfl, rfl, rfl, rfl, rfl⟩

/-- Counterexample to C9 as stated: placing a kart on the grid at spline
parameter 0.5 leaves checkpoint at 0.5, so `placeOnGrid` does not zero the
checkpoint. -/
theorem claim_C9_cex :
    (Kart.placeOnGrid ⟨0, 0, 0⟩ 0 (1 / 2)
      (Kart.create 0 default false : Kart ℚ)).checkpoint ≠ 0 := by
  show (1 / 2 : ℚ) ≠ 0
  norm_num

/-! ## Effective max speed and the speed clamp (claim C4) -/

lemma effMax_offroad_turbo (k : Kart ℝ) (hturbo : 0 < k.turboTimer)
    (hwob : k.wobbleTimer ≤ 0) (hboost : k.drift.state ≠ DriftState.boosting) :
    Kart.getEffectiveMaxSpeed k false = k.maxSpeed * (135 / 100) * (3 / 4) := by
  simp only [Kart.getEffectiveMaxSpeed, DriftBoost.speedMultiplier,
    OFFROAD_DURING_BOOST_MULTIPLIER, Bool.false_eq_true, if_false]
  have hor : (k.drift.isBoosting = true ∨ 0 < k.turboTimer) := Or.inr hturbo
  rw [if_pos hor, if_neg (not_lt.mpr hwob), if_pos hturbo, if_neg hboost]
  ring

lemma effMax_nonneg (k : Kart ℝ) (onRoad : Bool) (hmax : 0 ≤ k.maxSpeed) :
    0 ≤ Kart.getEffectiveMaxSpeed k onRoad := by
  simp only [Kart.getEffectiveMaxSpeed, DriftBoost.speedMultiplier,
    OFFROAD_DURING_BOOST_MULTIPLIER, OFFROAD_SPEED_MULTIPLIER, DRIFT_BOOST_MULTIPLIER]
  split_ifs <;> (repeat' apply mul_nonneg) <;> first | exact hmax | norm_num

lemma preSpeedState_maxSpeed {α : Type} [LinearOrderedField α]
    (dt a s : α) (dh onRoad z : Bool) (k : Kart α) :
    (Kart.preSpeedState dt a s dh onRoad z k).maxSpeed = k.maxSpeed := by
  simp only [Kart.preSpeedState, Kart.effectAndDrift]
  split_ifs <;> rfl

lemma clamp_bounds {e s2 : ℝ} (he : 0 ≤ e) :
    -(3 / 10) * e ≤ max (-e * (3 / 10)) (min e s2)
    ∧ max (-e * (3 / 10)) (min e s2) ≤ e := by
  constructor
  · calc -(3 / 10) * e = -e * (3 / 10) := by ring
    _ ≤ _ := le_max_left _ _
  · apply max_le
    · nlinarith
    · exact min_le_left _ _

/-- Claim C4: an off-road kart with an active turbo (and no wobble debuff or
drift boost, the other multipliers in the same product) has effective max
speed `maxSpeed * 1.35 * 0.75` — not `maxSpeed * 1.35 * 0.5` — and after any
`updatePhysics` call the speed lies in `[-0.3 * effMax, effMax]`, where
`effMax` is the effective max speed the call computed (from the kart state
after its effect-timer and drift phases). -/
theorem claim_C4 (k : Kart ℝ) (hmaxpos : 0 < k.maxSpeed) (hturbo : 0 < k.turboTimer)
    (hwob : k.wobbleTimer ≤ 0) (hboost : k.drift.state ≠ DriftState.boosting) :
    Kart.getEffectiveMaxSpeed k false = k.maxSpeed * (135 / 100) * (3 / 4)
    ∧ Kart.getEffectiveMaxSpeed k false ≠ k.maxSpeed * (135 / 100) * (1 / 2)
    ∧ ∀ (dt a s : ℝ) (dh onRoad z : Bool) (k' : Kart ℝ), 0 ≤ k'.maxSpeed →
        -(3 / 10) * Kart.getEffectiveMaxSpeed (Kart.preSpeedState dt a s dh onRoad z k') onRoad
            ≤ (Kart.updatePhysics realOps dt a s dh onRoad z k').speed
        ∧ (Kart.updatePhysics realOps dt a s dh onRoad z k').speed
            ≤ Kart.getEffectiveMaxSpeed (Kart.preSpeedState dt a s dh onRoad z k') onRoad := by
  have hf := effMax_offroad_turbo k hturbo hwob hboost
  refine ⟨hf, ?_, ?_⟩
  · rw [hf]
    intro heq
    nlinarith
  · intro dt a s dh onRoad z k' hmax
    have hE : 0 ≤ Kart.getEffectiveMaxSpeed (Kart.preSpeedState dt a s dh onRoad z k') onRoad :=
      effMax_nonneg _ onRoad (by rw [preSpeedState_maxSpeed]; exact hmax)
    exact clamp_bounds hE

/-- Witness for C4: a fresh kart (stats 0, max speed 31.5) off-road with a
1-second turbo timer. -/
theorem claim_C4_wit :
    (0 : ℝ) < ({ Kart.create 0 default false with turboTimer := 1 } : Kart ℝ).maxSpeed
    ∧ (0 : ℝ) < ({ Kart.create 0 default false with turboTimer := 1 } : Kart ℝ).turboTimer
    ∧ ({ Kart.create 0 default false with turboTimer := 1 } : Kart ℝ).wobbleTimer ≤ 0
    ∧ ({ Kart.create 0 default false with turboTimer := 1 } : Kart ℝ).drift.state
        ≠ DriftState.boosting
    ∧ Kart.getEffectiveMaxSpeed ({ Kart.create 0 default false with turboTimer := 1 } : Kart ℝ)
        false
      = ({ Kart.create 0 default false with turboTimer := 1 } : Kart ℝ).maxSpeed
          * (135 / 100) * (3 / 4) := by
  have h1 : (0 : ℝ) < ({ Kart.create 0 default false with turboTimer := 1 } : Kart ℝ).maxSpeed := by
    show (0 : ℝ) < BASE_MAX_SPEED ℝ * (7 / 10 + ((0 : ℚ) : ℝ) * (1 / 10))
    norm_num [BASE_MAX_SPEED]
  have h2 : (0 : ℝ) < ({ Kart.create 0 default false with turboTimer := 1 } : Kart ℝ).turboTimer := by
    show (0 : ℝ) < 1
    norm_num
  have h3 : ({ Kart.create 0 default false with turboTimer := 1 } : Kart ℝ).wobbleTimer ≤ 0 :=
    le_refl 0
  have h4 : ({ Kart.create 0 default false with turboTimer := 1 } : Kart ℝ).drift.state
      ≠ DriftState.boosting := by
    show DriftState.idle ≠ DriftState.boosting
    decide
  exact ⟨h1, h2, h3, h4, (claim_C4 _ h1 h2 h3 h4).1⟩

/-- Claim C7: the position sort places every finished kart before every
unfinished kart regardless of progress, orders finished karts by finish time
ascending, and unfinished karts by race progress descending; the concrete
karts A (finished t=10), B (finished t=12), C (unfinished, progress 5.3)
sort to [A, B, C]. The output is a permutation of the input. -/
theorem claim_C7 :
    (∀ l : List PosEntry, (sortEntries l).Pairwise (fun x y =>
        (y.finished = true → x.finished = true)
        ∧ (x.finished = true → y.finished = true → x.finishTime ≤ y.finishTime)
        ∧ (x.finished = false → y.finished = false → y.progress ≤ x.progress)))
    ∧ (∀ l : List PosEntry, (sortEntries l).Perm l)
    ∧ sortEntries [⟨2, 53 / 10, false, 0⟩, ⟨1, 6, true, 12⟩, ⟨0, 62 / 10, true, 10⟩]
        = [⟨0, 62 / 10, true, 10⟩, ⟨1, 6, true, 12⟩, ⟨2, 53 / 10, false, 0⟩] := by
  refine ⟨?_, fun l => List.perm_insertionSort posLe l, ?_⟩
  · intro l
    have hs : List.Sorted posLe (sortEntries l) := List.sorted_insertionSort posLe l
    refine List.Pairwise.imp ?_ hs
    intro x y hxy
    unfold posLe posCmp at hxy
    by_cases hx : x.finished = true <;> by_cases hy : y.finished = true <;>
      simp [hx, hy] at hxy ⊢ <;> linarith
  · unfold sortEntries
    norm_num [List.insertionSort, List.orderedInsert, posLe, posCmp]

/-- Witness for C7: the pairwise ordering guarantees at the concrete
three-kart list. -/
theorem claim_C7_wit :
    (sortEntries [⟨2, 53 / 10, false, 0⟩, ⟨1, 6, true, 12⟩, ⟨0, 62 / 10, true, 10⟩]).Pairwise
      (fun x y =>
        (y.finished = true → x.finished = true)
        ∧ (x.finished = true → y.finished = true → x.finishTime ≤ y.finishTime)
        ∧ (x.finished = false → y.finished = false → y.progress ≤ x.progress)) :=
  claim_C7.1 [⟨2, 53 / 10, false, 0⟩, ⟨1, 6, true, 12⟩, ⟨0, 62 / 10, true, 10⟩]

lemma findTargetAhead_ne_user (userIdx ti rp : ℕ) (karts : List (Kart ℚ))
    (positions : List ℕ)
    (h : findTargetAhead userIdx karts positions rp = some ti) : ti ≠ userIdx := by
  have hrand : ∀ hr : (((List.range karts.length).filter fun i =>
      decide ((karts[i]?.getD default).id ≠ (karts[userIdx]?.getD default).id))[rp]?)
        = some ti, ti ≠ userIdx := by
    intro hr heq
    have hmem := List.getElem?_mem hr
    have hpred := (List.mem_filter.mp hmem).2
    rw [decide_eq_true_eq] at hpred
    exact hpred (by rw [heq])
  unfold findTargetAhead at h
  rcases hp : positions[userIdx]? with _ | userPos <;> rw [hp] at h <;> dsimp only at h
  · exact hrand h
  · by_cases h0 : userPos = 0
    · rw [if_pos h0] at h
      exact hrand h
    · rw [if_neg h0] at h
      have hpred := List.find?_some h
      rw [decide_eq_true_eq] at hpred
      intro heq
      rw [heq, hp] at hpred
      have : userPos = userPos - 1 := Option.some_injective _ hpred
      omega

/-- Claim C10: `useItem` on a kart holding an item always nulls the held
item before applying the effect; when the targeted effect (gust or wobble)
finds no kart exactly one position ahead, the call returns `null` with no
other kart-state change — the item stays consumed and is not restored. -/
theorem claim_C10 (userIdx randPick : ℕ) (allKarts : List (Kart ℚ)) (positions : List ℕ)
    (item : ItemId) (hlen : userIdx < allKarts.length)
    (hheld : (allKarts[userIdx]?.getD default).heldItem = some item) :
    (((useItem userIdx allKarts positions randPick).2)[userIdx]?.getD default).heldItem = none
    ∧ (∀ p, positions[userIdx]? = some p → p ≠ 0 →
        (∀ i, i < allKarts.length → positions[i]? ≠ some (p - 1)) →
        item ≠ ItemId.turbo →
        (useItem userIdx allKarts positions randPick).1 = none
        ∧ (useItem userIdx allKarts positions randPick).2
          = allKarts.set userIdx
              { allKarts[userIdx]?.getD default with heldItem := none }) := by
  have hself : ∀ v : Kart ℚ, (allKarts.set userIdx v)[userIdx]?.getD default = v := by
    intro v
    rw [List.getElem?_set_eq_of_lt v hlen]
    rfl
  have hnoTarget : ∀ p, positions[userIdx]? = some p → p ≠ 0 →
      (∀ i, i < allKarts.length → positions[i]? ≠ some (p - 1)) →
      ∀ v : Kart ℚ,
        findTargetAhead userIdx (allKarts.set userIdx v) positions randPick = none := by
    intro p hp hp0 hno v
    unfold findTargetAhead
    rw [hp]
    dsimp only
    rw [if_neg hp0]
    apply List.find?_eq_none.mpr
    intro i hi
    rw [List.mem_range, List.length_set] at hi
    simp only [decide_eq_true_eq]
    exact hno i hi
  simp only [useItem, hheld]
  cases item with
  | turbo =>
    refine ⟨?_, ?_⟩
    · rw [hself, List.getElem?_set_eq_of_lt _ (by rw [List.length_set]; exact hlen)]
      rfl
    · intro p hp hp0 hno habs
      exact absurd rfl habs
  | gust =>
    rcases hft : findTargetAhead userIdx
        (allKarts.set userIdx { allKarts[userIdx]?.getD default with heldItem := none })
        positions randPick with _ | ti <;>
      simp only [hft]
    · exact ⟨by rw [hself], fun p hp hp0 hno _ => by constructor <;> trivial⟩
    · have hne := findTargetAhead_ne_user userIdx ti randPick _ positions hft
      refine ⟨?_, ?_⟩
      · rw [List.getElem?_set_ne hne, hself]
      · intro p hp hp0 hno _
        rw [hnoTarget p hp hp0 hno _] at hft
        exact absurd hft (by simp)
  | wobble =>
    rcases hft : findTargetAhead userIdx
        (allKarts.set userIdx { allKarts[userIdx]?.getD default with heldItem := none })
        positions randPick with _ | ti <;>
      simp only [hft]
    · exact ⟨by rw [hself], fun p hp hp0 hno _ => by constructor <;> trivial⟩
    · have hne := findTargetAhead_ne_user userIdx ti randPick _ positions hft
      refine ⟨?_, ?_⟩
      · rw [List.getElem?_set_ne hne, hself]
      · intro p hp hp0 hno _
        rw [hnoTarget p hp hp0 hno _] at hft
        exact absurd hft (by simp)

/-- Witness for C10: two karts, the user (index 0, race position 1) holds a
gust, and no kart holds race position 0, so the gust fizzles but the item is
consumed. -/
theorem claim_C10_wit :
    (0 < ([{ Kart.create 0 default false with heldItem := some ItemId.gust },
        Kart.create 1 default false] : List (Kart ℚ)).length)
    ∧ ((([{ Kart.create 0 default false with heldItem := some ItemId.gust },
        Kart.create 1 default false] : List (Kart ℚ))[0]?.getD default).heldItem
        = some ItemId.gust)
    ∧ ((useItem 0 [{ Kart.create 0 default false with heldItem := some ItemId.gust },
          Kart.create 1 default false] [1, 5] 0).1 = none
        ∧ (useItem 0 [{ Kart.create 0 default false with heldItem := some ItemId.gust },
            Kart.create 1 default false] [1, 5] 0).2
          = ([{ Kart.create 0 default false with heldItem := some ItemId.gust },
              Kart.create 1 default false] : List (Kart ℚ)).set 0
              { ([{ Kart.create 0 default false with heldItem := some ItemId.gust },
                  Kart.create 1 default false] : List (Kart ℚ))[0]?.getD default with
                heldItem := none }) := by
  refine ⟨by decide, rfl, ?_⟩
  exact (claim_C10 0 0 [{ Kart.create 0 default false with heldItem := some ItemId.gust },
      Kart.create 1 default false] [1, 5] ItemId.gust (by decide) rfl).2 1 rfl
    (by decide) (by
      intro i hi
      have hi2 : i < 2 := by simpa using hi
      rcases i with _ | n
      · decide
      · rcases n with _ | m
        · decide
        · omega) (by decide)

section CollisionLemmas

variable {α : Type} [LinearOrderedField α]

lemma barrierStep_flags (ops : AnalyticOps α) (pushFn : Vec3 α → Option (Vec3 α))
    (m : MKart α) :
    (barrierStep ops pushFn m).bumped = m.bumped
    ∧ ((barrierStep ops pushFn m).barrierHit = true →
        m.barrierHit = true ∨ 3 ≤ (barrierStep ops pushFn m).k.speed) := by
  unfold barrierStep
  cases hp : pushFn m.k.position with
  | none => exact ⟨rfl, fun h => Or.inl h⟩
  | some push => exact ⟨rfl, fun _ => Or.inr (le_max_right _ _)⟩

lemma pairStep_inv (ops : AnalyticOps α) (l : List (MKart α)) (ij : ℕ × ℕ)
    (h : speedInv l) : speedInv (pairStep ops l ij) := by
  simp only [pairStep]
  split_ifs with hg
  · intro m hm
    rcases List.mem_or_eq_of_mem_set hm with hm1 | rfl
    · rcases List.mem_or_eq_of_mem_set hm1 with hm2 | rfl
      · exact h m hm2
      · exact ⟨fun _ => le_max_right _ _, fun _ hb => by simp at hb⟩
    · exact ⟨fun _ => le_max_right _ _, fun _ hb => by simp at hb⟩
  · exact h

lemma foldl_pairStep_inv (ops : AnalyticOps α) (ps : List (ℕ × ℕ)) (l : List (MKart α))
    (h : speedInv l) : speedInv (ps.foldl (pairStep ops) l) := by
  induction ps generalizing l with
  | nil => exact h
  | cons p ps ih => exact ih _ (pairStep_inv ops l p h)

end CollisionLemmas

/-- Claim C5 (amended): after `resolveCollisions`, every kart that took part
in a resolved kart-kart overlap has speed at least 2; every kart that
received a barrier push and was not additionally bumped by a kart-kart
overlap has speed at least 3 (a subsequent overlap can lower a barrier-pushed
kart to the floor of 2); every kart a collision touched has positive speed,
so no collision drives a kart to zero. -/
theorem claim_C5 (karts : List (Kart ℝ)) (pushFn : Vec3 ℝ → Option (Vec3 ℝ))
    (rt : Option ℝ) :
    ∀ m ∈ resolveCollisionsM realOps (karts.map fun k => ⟨k, false, false⟩) pushFn rt,
      (m.bumped = true → 2 ≤ m.k.speed)
      ∧ (m.barrierHit = true → m.bumped = false → 3 ≤ m.k.speed)
      ∧ (m.barrierHit = true ∨ m.bumped = true → 0 < m.k.speed) := by
  have hinv1 : speedInv ((karts.map fun k => (⟨k, false, false⟩ : MKart ℝ)).map
      (barrierStep realOps pushFn)) := by
    intro m hm
    rw [List.mem_map] at hm
    obtain ⟨m0, hm0, rfl⟩ := hm
    rw [List.mem_map] at hm0
    obtain ⟨k0, hk0, rfl⟩ := hm0
    have hb := barrierStep_flags realOps pushFn ⟨k0, false, false⟩
    constructor
    · intro habs
      rw [hb.1] at habs
      simp at habs
    · intro hbh hbm
      rcases hb.2 hbh with h1 | h2
      · simp at h1
      · exact h2
  have hmain : speedInv (resolveCollisionsM realOps
      (karts.map fun k => ⟨k, false, false⟩) pushFn rt) := by
    unfold resolveCollisionsM
    split_ifs with hg
    · exact hinv1
    · exact foldl_pairStep_inv realOps _ _ hinv1
  intro m hm
  obtain ⟨h1, h2⟩ := hmain m hm
  refine ⟨h1, h2, ?_⟩
  intro hor
  cases hbm : m.bumped with
  | true => linarith [h1 hbm]
  | false =>
    rcases hor with hbh | habs
    · linarith [h2 hbh hbm]
    · rw [hbm] at habs
      simp at habs

lemma default_character : (default : CharacterDef) = ⟨"", "", 0, 0, 0, 0⟩ := rfl

/-- Counterexample to C5 as stated: kart 0 receives a barrier push (ending
the barrier phase at exactly the floor of 3) and is then bumped by the
reversing kart 1, leaving its final speed at the kart-kart floor of 2 — so a
barrier-pushed kart can end `resolveCollisions` with speed 2 < 3. -/
theorem claim_C5_cex :
    ((resolveCollisionsM realOps [⟨cexKartA, false, false⟩, ⟨cexKartB, false, false⟩]
        cexWall none).map fun m => (m.barrierHit, m.bumped, m.k.speed))
      = [(true, true, 2), (false, true, 2)]
    ∧ ¬(3 : ℝ) ≤ 2 := by
  constructor
  · norm_num [resolveCollisionsM, raceTimeLt, barrierStep, pairStep, kartPairs,
      cexKartA, cexKartB, cexWall, Kart.create, Kart.forward, realOps, default_character,
      Vec3.add, Vec3.sub, Vec3.smul, Vec3.dotv, Vec3.vlen,
      WALL_PUSH_FORCE, WALL_BOUNCE_FACTOR, KART_BOUNCE_FACTOR, KART_COLLISION_RADIUS,
      BASE_WEIGHT, BASE_MAX_SPEED, BASE_ACCELERATION, BASE_STEERING_SPEED, GRACE_PERIOD,
      Real.sin_zero, Real.cos_zero, Real.sqrt_one, abs_one, max_def,
      List.range_succ, List.range_zero]
  · norm_num

/-- Witness for C5: a lone kart, no barrier contact, during the grace
period. -/
theorem claim_C5_wit :
    ((⟨Kart.create 0 default false, false, false⟩ : MKart ℝ)
        ∈ resolveCollisionsM realOps
            ([Kart.create 0 default false].map fun k => ⟨k, false, false⟩)
            (fun _ => none) (some 0))
    ∧ (((⟨Kart.create 0 default false, false, false⟩ : MKart ℝ).bumped = true →
          2 ≤ (⟨Kart.create 0 default false, false, false⟩ : MKart ℝ).k.speed)
        ∧ ((⟨Kart.create 0 default false, false, false⟩ : MKart ℝ).barrierHit = true →
            (⟨Kart.create 0 default false, false, false⟩ : MKart ℝ).bumped = false →
            3 ≤ (⟨Kart.create 0 default false, false, false⟩ : MKart ℝ).k.speed)
        ∧ ((⟨Kart.create 0 default false, false, false⟩ : MKart ℝ).barrierHit = true
              ∨ (⟨Kart.create 0 default false, false, false⟩ : MKart ℝ).bumped = true →
            0 < (⟨Kart.create 0 default false, false, false⟩ : MKart ℝ).k.speed)) := by
  have hmem : (⟨Kart.create 0 default false, false, false⟩ : MKart ℝ)
      ∈ resolveCollisionsM realOps
          ([Kart.create 0 default false].map fun k => ⟨k, false, false⟩)
          (fun _ => none) (some 0) := by
    norm_num [resolveCollisionsM, raceTimeLt, barrierStep, GRACE_PERIOD]
  exact ⟨hmem, claim_C5 [Kart.create 0 default false] (fun _ => none) (some 0) _ hmem⟩

/-- Claim C1 (amended): kart-kart resolution is skipped entirely whenever the
supplied race time is below the 2 second grace period; but the one caller
omits the argument, so it defaults to `Infinity`, for which `raceTime <
GRACE_PERIOD` is false — the grace-period skip never fires and kart-kart
collision resolution always runs (it is the grace period, not kart-kart
collision avoidance, that is effectively disabled). -/
theorem claim_C1 (karts : List (Kart ℝ)) (pushFn : Vec3 ℝ → Option (Vec3 ℝ)) :
    (∀ t : ℝ, t < 2 →
      resolveCollisions realOps karts pushFn (some t)
        = karts.map fun k => (barrierStep realOps pushFn ⟨k, false, false⟩).k)
    ∧ (∀ t : ℝ, 2 ≤ t →
      resolveCollisions realOps karts pushFn none
        = resolveCollisions realOps karts pushFn (some t)) := by
  constructor
  · intro t ht
    have hc : raceTimeLt (some t) (GRACE_PERIOD ℝ) = true := by
      simp [raceTimeLt, GRACE_PERIOD]
      exact ht
    simp [resolveCollisions, resolveCollisionsM, hc, List.map_map, Function.comp]
  · intro t ht
    have hc1 : raceTimeLt (none : Option ℝ) (GRACE_PERIOD ℝ) = false := rfl
    have hc2 : raceTimeLt (some t) (GRACE_PERIOD ℝ) = false := by
      simp [raceTimeLt, GRACE_PERIOD]
      exact ht
    simp [resolveCollisions, resolveCollisionsM, hc1, hc2]

/-- Witness for C1 at t = 1 (inside the grace period) and t = 5 (past it). -/
theorem claim_C1_wit :
    ((1 : ℝ) < 2)
    ∧ (resolveCollisions realOps [] (fun _ => none) (some 1)
        = ([] : List (Kart ℝ)).map fun k =>
            (barrierStep realOps (fun _ => none) ⟨k, false, false⟩).k)
    ∧ ((2 : ℝ) ≤ 5)
    ∧ (resolveCollisions realOps [] (fun _ => none) none
        = resolveCollisions realOps [] (fun _ => none) (some 5)) :=
  ⟨by norm_num, (claim_C1 [] (fun _ => none)).1 1 (by norm_num), by norm_num,
    (claim_C1 [] (fun _ => none)).2 5 (by norm_num)⟩

/-- Counterexample to C1 as stated: with the `raceTime` argument omitted
(default `Infinity`, modelled `none`) the kart-kart phase still runs — two
overlapping karts exchange speed (10 becomes 9, 0 is floored to 2), so
kart-kart collision avoidance is not disabled as currently wired. -/
theorem claim_C1_cex :
    (resolveCollisions realOps [cexNearA, cexNearB] (fun _ => none) none).map (fun k => k.speed)
      = [9, 2]
    ∧ (9 : ℝ) ≠ 10 ∧ (2 : ℝ) ≠ 0 := by
  constructor
  · norm_num [resolveCollisions, resolveCollisionsM, raceTimeLt, barrierStep, pairStep,
      kartPairs, cexNearA, cexNearB, Kart.create, Kart.forward, realOps, default_character,
      Vec3.add, Vec3.sub, Vec3.smul, Vec3.dotv, Vec3.vlen,
      WALL_PUSH_FORCE, WALL_BOUNCE_FACTOR, KART_BOUNCE_FACTOR, KART_COLLISION_RADIUS,
      BASE_WEIGHT, BASE_MAX_SPEED, BASE_ACCELERATION, BASE_STEERING_SPEED, GRACE_PERIOD,
      Real.sin_zero, Real.cos_zero, Real.sqrt_one, abs_one, max_def,
      List.range_succ, List.range_zero]
  · norm_num

end Unikart
